import Mathlib

/-!
Shallow embedding of the AshBlake12/Dynamic-Scaling-in-ESP-32 repository
(src/SavePower.ino and the unnamed variant src/unnamed/part_000), together
with proofs of the behavioural properties stated in the design document.

Modelling conventions:
- The C float fields of SensorData are modelled as rationals; a sensor read
  that can fail (NaN from dht.readTemperature and dht.readHumidity) is
  modelled as Option values, none standing for NaN.
- FreeRTOS ticks are milliseconds (the default 1000 Hz tick rate of the
  ESP32 Arduino core, via pdMS_TO_TICKS); absolute tick counts are modelled
  as unbounded naturals, and the wrap-safe unsigned 32-bit subtraction
  idiom xTaskGetTickCount() - idleStartTime used by the code is modelled by
  tickDiff below, which reduces modulo 2 to the 32nd power.
- The two source variants implement the same sleep-manager, mailbox and
  power-configuration logic under different names (sleepManagerTask in
  both; processDataForTransmission and handleData; configurePowerManagement
  and configurePower); one definition embeds both, kept under the
  SavePower.ino name.  Where the variants genuinely differ (the DHT
  invalid-reading policy, the previous-light sentinel test) both are
  embedded under their own names.
-/

/-- Embeds struct SensorData (SavePower.ino lines 17-22): temperature and
humidity are C floats (modelled as rationals), lightLevel a C int
(modelled as an integer), timestamp an unsigned long (modelled as a
natural number of milliseconds). -/
structure SensorData where
  temperature : ℚ
  humidity : ℚ
  lightLevel : ℤ
  timestamp : ℕ
deriving DecidableEq, Repr

/-- Embeds the pair of globals shared between the two tasks: SensorData
currentData and volatile bool sensorReadingReady (SavePower.ino lines
24-25). -/
structure ReadingStore where
  currentData : SensorData
  sensorReadingReady : Bool
deriving DecidableEq, Repr

/-- MEASUREMENT_INTERVAL_MS from SavePower.ino line 28. -/
def MEASUREMENT_INTERVAL_MS : ℕ := 30000

/-- DEEP_SLEEP_THRESHOLD_MS from SavePower.ino line 29. -/
def DEEP_SLEEP_THRESHOLD_MS : ℕ := 35000

/-- Embeds the Arduino map function used at SavePower.ino line 147:
long map(long x, long in_min, long in_max, long out_min, long out_max)
computes (x - in_min) * (out_max - out_min) / (in_max - in_min) + out_min
with C long arithmetic, whose division truncates toward zero (Int.tdiv). -/
def map (x in_min in_max out_min out_max : ℤ) : ℤ :=
  Int.tdiv ((x - in_min) * (out_max - out_min)) (in_max - in_min) + out_min

/-- Embeds readLightSensor (SavePower.ino lines 142-151) and readLight
(part_000 lines 123-127): the value stored into currentData.lightLevel
for a raw ADC sample, namely map(rawValue, 0, 4095, 0, 100). -/
def readLightSensorLevel (rawValue : ℤ) : ℤ :=
  map rawValue 0 4095 0 100

/-- Embeds readDHTSensor (SavePower.ino lines 128-140): if either the
temperature or the humidity read is NaN, the whole update is skipped and
both fields keep their previous values; otherwise both fields are
overwritten with the fresh values. -/
def readDHTSensor (currentData : SensorData)
    (temperature humidity : Option ℚ) : SensorData :=
  match temperature, humidity with
  | some t, some h => { currentData with temperature := t, humidity := h }
  | _, _ => currentData

/-- Embeds readTempHumidity (part_000 lines 113-121): each of the two
fields is updated independently whenever its own read is not NaN. -/
def readTempHumidity (currentData : SensorData)
    (temperature humidity : Option ℚ) : SensorData :=
  let d1 := match temperature with
    | some t => { currentData with temperature := t }
    | none => currentData
  match humidity with
  | some h => { d1 with humidity := h }
  | none => d1

/-- Records which of the three alert conditions of checkSensorThresholds
(SavePower.ino lines 166-194) held in one evaluation; the code prints one
line per condition and ors them into a single bool alertCondition. -/
structure AlertFlags where
  tempAlert : Bool
  humAlert : Bool
  lightAlert : Bool
deriving DecidableEq, Repr

/-- Embeds checkSensorThresholds (SavePower.ino lines 166-194).  The
static int previousLight (initially -1) is passed and returned
explicitly; the light-delta condition tests previousLight >= 0 and
abs(currentData.lightLevel - previousLight) > 30, and previousLight is
then overwritten with the current light level. -/
def checkSensorThresholds (currentData : SensorData) (previousLight : ℤ) :
    AlertFlags × ℤ :=
  let tempAlert : Bool :=
    decide (currentData.temperature > 35 ∨ currentData.temperature < 5)
  let humAlert : Bool :=
    decide (currentData.humidity > 80 ∨ currentData.humidity < 20)
  let lightAlert : Bool :=
    decide (previousLight ≥ 0 ∧ |currentData.lightLevel - previousLight| > 30)
  (⟨tempAlert, humAlert, lightAlert⟩, currentData.lightLevel)

/-- Embeds checkThresholds (part_000 lines 141-166); identical to
checkSensorThresholds except that the no-baseline sentinel test is
prevLight != -1 instead of previousLight >= 0. -/
def checkThresholds (currentData : SensorData) (prevLight : ℤ) :
    AlertFlags × ℤ :=
  let tempAlert : Bool :=
    decide (currentData.temperature > 35 ∨ currentData.temperature < 5)
  let humAlert : Bool :=
    decide (currentData.humidity > 80 ∨ currentData.humidity < 20)
  let lightAlert : Bool :=
    decide (prevLight ≠ -1 ∧ |currentData.lightLevel - prevLight| > 30)
  (⟨tempAlert, humAlert, lightAlert⟩, currentData.lightLevel)

/-- Embeds processDataForTransmission (SavePower.ino lines 241-257) and
handleData (part_000 lines 203-209): if sensorReadingReady is false the
call returns at once and changes nothing; otherwise the stored reading is
processed and sensorReadingReady is cleared.  The Option component
records whether a reading was consumed and, if so, which one. -/
def processDataForTransmission (s : ReadingStore) :
    Option SensorData × ReadingStore :=
  if s.sensorReadingReady then
    (some s.currentData, { s with sensorReadingReady := false })
  else
    (none, s)

/-- Embeds esp_pm_config_esp32_t as used at SavePower.ino lines 60-64 and
72-76. -/
structure PmConfig where
  max_freq_mhz : ℕ
  min_freq_mhz : ℕ
  light_sleep_enable : Bool
deriving DecidableEq, Repr

/-- The primary pm_config literal of configurePowerManagement
(SavePower.ino lines 60-64) and configurePower (part_000 lines 36-40). -/
def pm_config : PmConfig :=
  { max_freq_mhz := 240, min_freq_mhz := 80, light_sleep_enable := true }

/-- The fallback_config literal of configurePowerManagement (SavePower.ino
lines 72-76) and configurePower (part_000 lines 47-51). -/
def fallback_config : PmConfig :=
  { max_freq_mhz := 240, min_freq_mhz := 160, light_sleep_enable := false }

/-- Embeds the control flow of configurePowerManagement (SavePower.ino
lines 58-89) and configurePower (part_000 lines 33-60) against an
abstract platform oracle esp_pm_configure telling whether a given
configuration is accepted.  The result is the exact sequence of
configurations passed to esp_pm_configure: the primary config first and,
only if it is rejected, the fallback config once; in every case the
function then returns normally (all outcomes are only logged). -/
def configurePowerManagement (esp_pm_configure : PmConfig → Bool) :
    List PmConfig :=
  if esp_pm_configure pm_config then
    [pm_config]
  else
    [pm_config, fallback_config]

/-- Embeds the three local variables of sleepManagerTask (SavePower.ino
lines 197-199): idleStartTime, systemIdle, initialMeasurementComplete
(idleStart, isIdle, gotFirst in part_000). -/
structure SleepManagerState where
  idleStartTime : ℕ
  systemIdle : Bool
  initialMeasurementComplete : Bool
deriving DecidableEq, Repr

/-- Wrap-safe elapsed-tick computation: xTaskGetTickCount() -
idleStartTime on the unsigned 32-bit TickType_t of the ESP32 port
(SavePower.ino line 227).  For start <= now with now - start below 2 to
the 32nd power, which holds in every reachable configuration of the
model, this equals now - start. -/
def tickDiff (now start : ℕ) : ℕ :=
  (now + 2 ^ 32 - start) % 2 ^ 32

/-- The microsecond value armed before suspension: enterDeepSleep
(SavePower.ino lines 259-272) computes MEASUREMENT_INTERVAL_MS * 1000 and
passes it to esp_sleep_enable_timer_wakeup. -/
def sleepDurationUs : ℕ := MEASUREMENT_INTERVAL_MS * 1000

/-- Embeds the timeout (else) branch of the sleepManagerTask loop
(SavePower.ino lines 217-233), executed when xSemaphoreTake expires; now
is the tick count at that point.  First, if initialMeasurementComplete
holds and the system is not yet idle, systemIdle is set and idleStartTime
recorded; then, if initialMeasurementComplete and systemIdle both hold
and the elapsed idle time exceeds DEEP_SLEEP_THRESHOLD_MS ticks,
enterDeepSleep is called (Sum.inr carrying the armed wake-timer value in
microseconds, since esp_deep_sleep_start never returns).  Note that both
if statements run in the same iteration, so an iteration that enters the
idle state measures an idle duration of zero and never sleeps. -/
def stepTimeout (s : SleepManagerState) (now : ℕ) :
    SleepManagerState ⊕ ℕ :=
  let s1 :=
    if s.initialMeasurementComplete && !s.systemIdle then
      { s with systemIdle := true, idleStartTime := now }
    else s
  if s1.initialMeasurementComplete && s1.systemIdle then
    if tickDiff now s1.idleStartTime > DEEP_SLEEP_THRESHOLD_MS then
      Sum.inr sleepDurationUs
    else
      Sum.inl s1
  else
    Sum.inl s1

/-- One iteration of the sleepManagerTask while loop (SavePower.ino lines
203-238).  The environment is the list of future xSemaphoreGive times of
sensorTask, sorted ascending, and t is the tick count at which
xSemaphoreTake is called with a 5000 ms bound.
If the earliest give time falls at or before t + 5000, the take succeeds
at max give t (a give at or before t was latched by the binary semaphore
and is consumed immediately; a later give inside the window wakes the
take at the give time).  The success branch (lines 205-216) then runs
processDataForTransmission, which delays 500 ms, because every give is
preceded by processSensorData setting sensorReadingReady; afterwards
idleStartTime is read from the tick count, systemIdle cleared and
initialMeasurementComplete set.  Otherwise the take times out at t + 5000
and the timeout branch stepTimeout runs.  Both branches end with
vTaskDelay(500) before the next take (line 237).
The binary semaphore coalesces a second give arriving while one is
already latched; with the give schedules analysed here at most one give
is ever pending (gives are at least 29500 ms apart while the loop is away
from the take for at most 1000 ms), so consuming the earliest pending
give is exact. -/
def sleepManagerStep (gives : List ℕ) (t : ℕ) (s : SleepManagerState) :
    (List ℕ × ℕ × SleepManagerState) ⊕ (ℕ × ℕ) :=
  match gives with
  | g :: rest =>
    if g ≤ t + 5000 then
      let now := max g t
      Sum.inl (rest, now + 1000,
        { idleStartTime := now + 500, systemIdle := false,
          initialMeasurementComplete := true })
    else
      match stepTimeout s (t + 5000) with
      | Sum.inl s1 => Sum.inl (g :: rest, t + 5000 + 500, s1)
      | Sum.inr d => Sum.inr (t + 5000, d)
  | [] =>
    match stepTimeout s (t + 5000) with
    | Sum.inl s1 => Sum.inl ([], t + 5000 + 500, s1)
    | Sum.inr d => Sum.inr (t + 5000, d)

/-- Iterates sleepManagerStep for a given number of loop iterations.  A
Sum.inr result means enterDeepSleep ran, carrying the tick count at which
it was called and the armed wake-timer microseconds; the loop never
resumes afterwards, so the run stops there. -/
def sleepManagerRun :
    ℕ → List ℕ → ℕ → SleepManagerState →
      (List ℕ × ℕ × SleepManagerState) ⊕ (ℕ × ℕ)
  | 0, gives, t, s => Sum.inl (gives, t, s)
  | n + 1, gives, t, s =>
    match sleepManagerStep gives t s with
    | Sum.inl (g1, t1, s1) => sleepManagerRun n g1 t1 s1
    | Sum.inr r => Sum.inr r

/-- The sleep-manager state immediately after a completion signal
consumed at tick c has been processed (success branch of the loop,
SavePower.ino lines 205-216): idleStartTime was read after the 500 ms
processing delay, systemIdle is false (phase Active) and
initialMeasurementComplete is true; the next xSemaphoreTake starts at
c + 1000. -/
def afterSignal (c : ℕ) : SleepManagerState :=
  { idleStartTime := c + 500, systemIdle := false,
    initialMeasurementComplete := true }

/-- Give times of a sensorTask that signals completion every
MEASUREMENT_INTERVAL_MS = 30000 ms, starting 30000 ms after tick c:
the list c + 30000, c + 60000, ..., c + 30000 * n. -/
def signalSchedule (c n : ℕ) : List ℕ :=
  (List.range n).map fun k => c + 30000 * (k + 1)

/-- C9: for every raw ADC value in [0, 4095] the light conversion
readLightSensorLevel is within [0, 100], is 0 at raw = 0, is 100 at
raw = 4095, and is monotone non-decreasing in the raw value. -/
theorem readLightSensorLevel_range_monotone (raw raw2 : ℤ)
    (h0 : 0 ≤ raw) (h1 : raw ≤ raw2) (h2 : raw2 ≤ 4095) :
    (0 ≤ readLightSensorLevel raw ∧ readLightSensorLevel raw ≤ 100) ∧
    readLightSensorLevel 0 = 0 ∧ readLightSensorLevel 4095 = 100 ∧
    readLightSensorLevel raw ≤ readLightSensorLevel raw2 := by
  have key : ∀ x : ℤ, 0 ≤ x → readLightSensorLevel x = x * 100 / 4095 := by
    intro x hx
    unfold readLightSensorLevel map
    rw [Int.tdiv_eq_ediv (by nlinarith) (by norm_num)]
    norm_num
  have h0b : 0 ≤ raw2 := le_trans h0 h1
  rw [key raw h0, key raw2 h0b, key 0 le_rfl, key 4095 (by norm_num)]
  refine ⟨⟨?_, ?_⟩, by norm_num, by decide, ?_⟩ <;> omega

/-- Witness for readLightSensorLevel_range_monotone at raw = 1000,
raw2 = 2000. -/
theorem readLightSensorLevel_range_monotone_witness :
    (0 ≤ readLightSensorLevel 1000 ∧ readLightSensorLevel 1000 ≤ 100) ∧
    readLightSensorLevel 0 = 0 ∧ readLightSensorLevel 4095 = 100 ∧
    readLightSensorLevel 1000 ≤ readLightSensorLevel 2000 :=
  readLightSensorLevel_range_monotone 1000 2000 (by decide) (by decide)
    (by decide)

/-- C4 counterexample: in the readDHTSensor variant (SavePower.ino lines
128-140), when the temperature read is NaN and the humidity read is a
fresh valid value 55, the stored humidity is NOT updated to 55; the whole
update is skipped and the previous humidity 10 is kept, refuting
per-field carry-forward for this acquisition path. -/
theorem readDHTSensor_all_or_nothing_counterexample :
    readDHTSensor ⟨20, 10, 0, 0⟩ none (some 55) = ⟨20, 10, 0, 0⟩ ∧
    (readDHTSensor ⟨20, 10, 0, 0⟩ none (some 55)).humidity = 10 :=
  ⟨rfl, rfl⟩

/-- C4 amended: the readTempHumidity variant (part_000 lines 113-121)
implements per-field carry-forward: an invalid field keeps its previous
value while the other field is updated to the freshly read value; the
readDHTSensor variant (SavePower.ino lines 128-140) instead carries BOTH
fields forward whenever either read is invalid (all-or-nothing), so the
valid field is not updated there, though the reading as a whole is never
discarded in either variant. -/
theorem readTempHumidity_per_field_carry_forward
    (cur : SensorData) (tv hv : ℚ) :
    readTempHumidity cur none (some hv) = { cur with humidity := hv } ∧
    readTempHumidity cur (some tv) none = { cur with temperature := tv } ∧
    readTempHumidity cur (some tv) (some hv) =
      { cur with temperature := tv, humidity := hv } ∧
    readDHTSensor cur none (some hv) = cur ∧
    readDHTSensor cur (some tv) none = cur :=
  ⟨rfl, rfl, rfl, rfl, rfl⟩

/-- C5: if the primary power profile is rejected, the fallback profile is
attempted exactly once, and whatever the fallback outcome no further
configuration attempts are made (the attempt trace is exactly primary
then fallback) and the procedure returns normally. -/
theorem configurePowerManagement_fallback_exactly_once
    (esp_pm_configure : PmConfig → Bool)
    (h : esp_pm_configure pm_config = false) :
    configurePowerManagement esp_pm_configure =
      [pm_config, fallback_config] ∧
    (configurePowerManagement esp_pm_configure).count fallback_config = 1 := by
  have e : configurePowerManagement esp_pm_configure =
      [pm_config, fallback_config] := by
    simp [configurePowerManagement, h]
  exact ⟨e, by rw [e]; decide⟩

/-- Witness for configurePowerManagement_fallback_exactly_once with a
platform oracle rejecting every configuration. -/
theorem configurePowerManagement_fallback_exactly_once_witness :
    configurePowerManagement (fun _ => false) =
      [pm_config, fallback_config] ∧
    (configurePowerManagement (fun _ => false)).count fallback_config = 1 :=
  configurePowerManagement_fallback_exactly_once (fun _ => false) rfl

/-- C6: a reading with temperature in [5, 35] and humidity in [20, 80],
evaluated with no previous light baseline (the initial sentinel -1),
raises none of the three alerts, in both source variants. -/
theorem evaluate_nominal_empty (d : SensorData)
    (ht1 : 5 ≤ d.temperature) (ht2 : d.temperature ≤ 35)
    (hh1 : 20 ≤ d.humidity) (hh2 : d.humidity ≤ 80) :
    (checkSensorThresholds d (-1)).1 = ⟨false, false, false⟩ ∧
    (checkThresholds d (-1)).1 = ⟨false, false, false⟩ := by
  have t1 : decide (d.temperature > 35 ∨ d.temperature < 5) = false :=
    decide_eq_false (by rintro (h | h) <;> linarith)
  have t2 : decide (d.humidity > 80 ∨ d.humidity < 20) = false :=
    decide_eq_false (by rintro (h | h) <;> linarith)
  have t3 : decide ((-1 : ℤ) ≥ 0 ∧ |d.lightLevel - (-1)| > 30) = false :=
    decide_eq_false (by rintro ⟨h, _⟩; omega)
  have t4 : decide ((-1 : ℤ) ≠ -1 ∧ |d.lightLevel - (-1)| > 30) = false :=
    decide_eq_false (by rintro ⟨h, _⟩; exact h rfl)
  exact ⟨by simp [checkSensorThresholds, t1, t2, t3],
         by simp [checkThresholds, t1, t2, t4]⟩

/-- Witness for evaluate_nominal_empty at the reading
(20 C, 50 percent, light 40, time 0). -/
theorem evaluate_nominal_empty_witness :
    (checkSensorThresholds ⟨20, 50, 40, 0⟩ (-1)).1 = ⟨false, false, false⟩ ∧
    (checkThresholds ⟨20, 50, 40, 0⟩ (-1)).1 = ⟨false, false, false⟩ :=
  evaluate_nominal_empty ⟨20, 50, 40, 0⟩ (by decide) (by decide) (by decide)
    (by decide)

/-- C7: when a previous light baseline exists (prev is an actual stored
light level, hence non-negative), the light-delta alert fires if and only
if the absolute difference between the current and previous light levels
exceeds 30 percentage points, in both source variants. -/
theorem lightDelta_fires_iff (d : SensorData) (prev : ℤ)
    (hprev : 0 ≤ prev) :
    ((checkSensorThresholds d prev).1.lightAlert = true ↔
      |d.lightLevel - prev| > 30) ∧
    ((checkThresholds d prev).1.lightAlert = true ↔
      |d.lightLevel - prev| > 30) := by
  constructor
  · simp only [checkSensorThresholds, decide_eq_true_eq]
    exact ⟨fun h => h.2, fun h => ⟨by omega, h⟩⟩
  · simp only [checkThresholds, decide_eq_true_eq]
    exact ⟨fun h => h.2, fun h => ⟨by omega, h⟩⟩

/-- Witness for lightDelta_fires_iff at previous light 10 and current
light 45 (delta 35 > 30, alert fires). -/
theorem lightDelta_fires_iff_witness :
    ((checkSensorThresholds ⟨20, 50, 45, 0⟩ 10).1.lightAlert = true ↔
      |(45 : ℤ) - 10| > 30) ∧
    ((checkThresholds ⟨20, 50, 45, 0⟩ 10).1.lightAlert = true ↔
      |(45 : ℤ) - 10| > 30) :=
  lightDelta_fires_iff ⟨20, 50, 45, 0⟩ 10 (by decide)

/-- C8: with a published (ready) reading, consuming twice without an
intervening publish yields the stored reading once and none the second
time, the first consumption having cleared the ready flag. -/
theorem consumeIfReady_twice (s : ReadingStore)
    (h : s.sensorReadingReady = true) :
    (processDataForTransmission s).1 = some s.currentData ∧
    (processDataForTransmission (processDataForTransmission s).2).1 =
      none := by
  simp [processDataForTransmission, h]

/-- Witness for consumeIfReady_twice at a concrete ready store. -/
theorem consumeIfReady_twice_witness :
    (processDataForTransmission ⟨⟨20, 50, 40, 0⟩, true⟩).1 =
      some ⟨20, 50, 40, 0⟩ ∧
    (processDataForTransmission
      (processDataForTransmission ⟨⟨20, 50, 40, 0⟩, true⟩).2).1 = none :=
  consumeIfReady_twice ⟨⟨20, 50, 40, 0⟩, true⟩ rfl

/-- C10: consuming a reading leaves the stored SensorData (all four
fields) unchanged, and when the ready flag is already false the operation
changes no state at all and consumes nothing. -/
theorem consume_modifies_only_ready_flag (s : ReadingStore) :
    ((processDataForTransmission s).2).currentData = s.currentData ∧
    (s.sensorReadingReady = false →
      processDataForTransmission s = (none, s)) := by
  cases h : s.sensorReadingReady <;> simp [processDataForTransmission, h]

/-- Witness for consume_modifies_only_ready_flag at a concrete store with
the ready flag already cleared. -/
theorem consume_modifies_only_ready_flag_witness :
    ((processDataForTransmission ⟨⟨1, 2, 3, 4⟩, false⟩).2).currentData =
      ⟨1, 2, 3, 4⟩ ∧
    processDataForTransmission ⟨⟨1, 2, 3, 4⟩, false⟩ =
      (none, ⟨⟨1, 2, 3, 4⟩, false⟩) :=
  ⟨(consume_modifies_only_ready_flag ⟨⟨1, 2, 3, 4⟩, false⟩).1,
   (consume_modifies_only_ready_flag ⟨⟨1, 2, 3, 4⟩, false⟩).2 rfl⟩

/-- Peeling one loop iteration off a run whose first step continues. -/
lemma run_succ_inl (n : ℕ) {gives : List ℕ} {t : ℕ}
    {s : SleepManagerState} {g1 : List ℕ} {t1 : ℕ} {s1 : SleepManagerState}
    (h : sleepManagerStep gives t s = Sum.inl (g1, t1, s1)) :
    sleepManagerRun (n + 1) gives t s = sleepManagerRun n g1 t1 s1 := by
  simp [sleepManagerRun, h]

/-- Peeling one loop iteration off a run whose first step enters deep
sleep. -/
lemma run_succ_inr (n : ℕ) {gives : List ℕ} {t : ℕ}
    {s : SleepManagerState} {r : ℕ × ℕ}
    (h : sleepManagerStep gives t s = Sum.inr r) :
    sleepManagerRun (n + 1) gives t s = Sum.inr r := by
  simp [sleepManagerRun, h]

/-- Splitting a run into two stages; a deep-sleep result in the first
stage is final. -/
lemma run_add (m k : ℕ) (gives : List ℕ) (t : ℕ) (s : SleepManagerState) :
    sleepManagerRun (m + k) gives t s =
      match sleepManagerRun m gives t s with
      | Sum.inl (g1, t1, s1) => sleepManagerRun k g1 t1 s1
      | Sum.inr r => Sum.inr r := by
  induction m generalizing gives t s with
  | zero => simp [sleepManagerRun]
  | succ m ih =>
    have hfuel : m + 1 + k = (m + k) + 1 := by omega
    rw [hfuel]
    cases h : sleepManagerStep gives t s with
    | inl p =>
      obtain ⟨g1, t1, s1⟩ := p
      rw [run_succ_inl (m + k) h, run_succ_inl m h, ih]
    | inr r =>
      rw [run_succ_inr (m + k) h, run_succ_inr m h]

/-- Once a run has entered deep sleep, any longer run gives the same
result. -/
lemma run_inr_extend (m k : ℕ) (gives : List ℕ) (t : ℕ)
    (s : SleepManagerState) (r : ℕ × ℕ)
    (h : sleepManagerRun m gives t s = Sum.inr r) :
    sleepManagerRun (m + k) gives t s = Sum.inr r := by
  rw [run_add m k, h]

/-- Timeout step from the Active phase: the machine enters Idle,
recording now as the idle start, and never sleeps in the same iteration
since the measured idle duration is zero. -/
lemma stepTimeout_active (i now : ℕ) :
    stepTimeout ⟨i, false, true⟩ now = Sum.inl ⟨now, true, true⟩ := by
  have h0 : tickDiff now now = 0 := by unfold tickDiff; omega
  simp [stepTimeout, h0, DEEP_SLEEP_THRESHOLD_MS]

/-- Timeout step from the Idle phase while the idle duration is still at
or below the threshold: no state change. -/
lemma stepTimeout_idle_le (i now : ℕ)
    (h : tickDiff now i ≤ DEEP_SLEEP_THRESHOLD_MS) :
    stepTimeout ⟨i, true, true⟩ now = Sum.inl ⟨i, true, true⟩ := by
  have h2 : ¬ tickDiff now i > DEEP_SLEEP_THRESHOLD_MS := not_lt.mpr h
  simp [stepTimeout, h2]

/-- Timeout step from the Idle phase once the idle duration exceeds the
threshold: enterDeepSleep runs, arming sleepDurationUs microseconds. -/
lemma stepTimeout_idle_gt (i now : ℕ)
    (h : DEEP_SLEEP_THRESHOLD_MS < tickDiff now i) :
    stepTimeout ⟨i, true, true⟩ now = Sum.inr sleepDurationUs := by
  simp [stepTimeout, h]

/-- Timeout step before the first measurement has completed: nothing at
all happens. -/
lemma stepTimeout_waitingFirst (s : SleepManagerState) (now : ℕ)
    (h : s.initialMeasurementComplete = false) :
    stepTimeout s now = Sum.inl s := by
  simp [stepTimeout, h]

/-- Iteration consuming a completion signal: the earliest give falls
inside the 5000 ms wait window (or was already latched), so the take
succeeds at max g t and the success branch of the loop runs. -/
lemma step_signal (g : ℕ) (rest : List ℕ) (t : ℕ) (s : SleepManagerState)
    (h : g ≤ t + 5000) :
    sleepManagerStep (g :: rest) t s =
      Sum.inl (rest, max g t + 1000, afterSignal (max g t)) := by
  simp [sleepManagerStep, h, afterSignal]

/-- Iteration timing out (next give beyond the window) in the Active
phase. -/
lemma step_cons_tmo_active (g : ℕ) (rest : List ℕ) (t i : ℕ)
    (hg : t + 5000 < g) :
    sleepManagerStep (g :: rest) t ⟨i, false, true⟩ =
      Sum.inl (g :: rest, t + 5500, ⟨t + 5000, true, true⟩) := by
  have h : ¬ g ≤ t + 5000 := by omega
  simp [sleepManagerStep, h, stepTimeout_active]

/-- Iteration timing out in the Idle phase below the deep-sleep
threshold. -/
lemma step_cons_tmo_idle_le (g : ℕ) (rest : List ℕ) (t i : ℕ)
    (hg : t + 5000 < g)
    (h2 : tickDiff (t + 5000) i ≤ DEEP_SLEEP_THRESHOLD_MS) :
    sleepManagerStep (g :: rest) t ⟨i, true, true⟩ =
      Sum.inl (g :: rest, t + 5500, ⟨i, true, true⟩) := by
  have h : ¬ g ≤ t + 5000 := by omega
  simp [sleepManagerStep, h, stepTimeout_idle_le _ _ h2]

/-- Iteration timing out in the Idle phase beyond the deep-sleep
threshold: enterDeepSleep runs at tick t + 5000. -/
lemma step_cons_tmo_idle_gt (g : ℕ) (rest : List ℕ) (t i : ℕ)
    (hg : t + 5000 < g)
    (h2 : DEEP_SLEEP_THRESHOLD_MS < tickDiff (t + 5000) i) :
    sleepManagerStep (g :: rest) t ⟨i, true, true⟩ =
      Sum.inr (t + 5000, sleepDurationUs) := by
  have h : ¬ g ≤ t + 5000 := by omega
  simp [sleepManagerStep, h, stepTimeout_idle_gt _ _ h2]

/-- Iteration timing out with no give ever to come, Active phase. -/
lemma step_nil_tmo_active (t i : ℕ) :
    sleepManagerStep [] t ⟨i, false, true⟩ =
      Sum.inl ([], t + 5500, ⟨t + 5000, true, true⟩) := by
  simp [sleepManagerStep, stepTimeout_active]

/-- Iteration timing out with no give ever to come, Idle phase below the
threshold. -/
lemma step_nil_tmo_idle_le (t i : ℕ)
    (h2 : tickDiff (t + 5000) i ≤ DEEP_SLEEP_THRESHOLD_MS) :
    sleepManagerStep [] t ⟨i, true, true⟩ =
      Sum.inl ([], t + 5500, ⟨i, true, true⟩) := by
  simp [sleepManagerStep, stepTimeout_idle_le _ _ h2]

/-- Iteration timing out with no give ever to come, Idle phase beyond the
threshold: enterDeepSleep runs at tick t + 5000. -/
lemma step_nil_tmo_idle_gt (t i : ℕ)
    (h2 : DEEP_SLEEP_THRESHOLD_MS < tickDiff (t + 5000) i) :
    sleepManagerStep [] t ⟨i, true, true⟩ =
      Sum.inr (t + 5000, sleepDurationUs) := by
  simp [sleepManagerStep, stepTimeout_idle_gt _ _ h2]

/-- Iteration timing out before the first measurement: the state is
unchanged, only time advances. -/
lemma step_nil_notFirst (t : ℕ) (s : SleepManagerState)
    (h : s.initialMeasurementComplete = false) :
    sleepManagerStep [] t s = Sum.inl ([], t + 5500, s) := by
  simp [sleepManagerStep, stepTimeout_waitingFirst s _ h]

/-- One full 30000 ms period of the steady state: starting just after a
signal consumed at tick c with the next give due at c + 30000, the
manager times out five times (entering Idle at c + 6000 and measuring
idle durations 0, 5500, 11000, 16500 and 22000, all below the 35000 ms
threshold) and then consumes the next signal exactly at its give time
c + 30000, returning to the Active phase. -/
lemma run_six_period (c : ℕ) (rest : List ℕ) :
    sleepManagerRun 6 ((c + 30000) :: rest) (c + 1000) (afterSignal c) =
      Sum.inl (rest, c + 30000 + 1000, afterSignal (c + 30000)) := by
  have e1 : sleepManagerStep ((c + 30000) :: rest) (c + 1000)
      (afterSignal c) =
      Sum.inl ((c + 30000) :: rest, c + 6500, ⟨c + 6000, true, true⟩) := by
    rw [show afterSignal c = ⟨c + 500, false, true⟩ from rfl,
        step_cons_tmo_active _ _ _ _ (by omega)]
  have e2 : sleepManagerStep ((c + 30000) :: rest) (c + 6500)
      ⟨c + 6000, true, true⟩ =
      Sum.inl ((c + 30000) :: rest, c + 12000, ⟨c + 6000, true, true⟩) := by
    rw [step_cons_tmo_idle_le _ _ _ _ (by omega)
      (by simp only [tickDiff, DEEP_SLEEP_THRESHOLD_MS]; omega)]
  have e3 : sleepManagerStep ((c + 30000) :: rest) (c + 12000)
      ⟨c + 6000, true, true⟩ =
      Sum.inl ((c + 30000) :: rest, c + 17500, ⟨c + 6000, true, true⟩) := by
    rw [step_cons_tmo_idle_le _ _ _ _ (by omega)
      (by simp only [tickDiff, DEEP_SLEEP_THRESHOLD_MS]; omega)]
  have e4 : sleepManagerStep ((c + 30000) :: rest) (c + 17500)
      ⟨c + 6000, true, true⟩ =
      Sum.inl ((c + 30000) :: rest, c + 23000, ⟨c + 6000, true, true⟩) := by
    rw [step_cons_tmo_idle_le _ _ _ _ (by omega)
      (by simp only [tickDiff, DEEP_SLEEP_THRESHOLD_MS]; omega)]
  have e5 : sleepManagerStep ((c + 30000) :: rest) (c + 23000)
      ⟨c + 6000, true, true⟩ =
      Sum.inl ((c + 30000) :: rest, c + 28500, ⟨c + 6000, true, true⟩) := by
    rw [step_cons_tmo_idle_le _ _ _ _ (by omega)
      (by simp only [tickDiff, DEEP_SLEEP_THRESHOLD_MS]; omega)]
  have e6 : sleepManagerStep ((c + 30000) :: rest) (c + 28500)
      ⟨c + 6000, true, true⟩ =
      Sum.inl (rest, c + 30000 + 1000, afterSignal (c + 30000)) := by
    rw [step_signal _ _ _ _ (by omega),
        max_eq_left (by omega : c + 28500 ≤ c + 30000)]
  refine (run_succ_inl 5 e1).trans ?_
  refine (run_succ_inl 4 e2).trans ?_
  refine (run_succ_inl 3 e3).trans ?_
  refine (run_succ_inl 2 e4).trans ?_
  refine (run_succ_inl 1 e5).trans ?_
  refine (run_succ_inl 0 e6).trans ?_
  simp [sleepManagerRun]

/-- Unfolding a signal schedule from the front. -/
lemma signalSchedule_succ_cons (c n : ℕ) :
    signalSchedule c (n + 1) = (c + 30000) :: signalSchedule (c + 30000) n := by
  unfold signalSchedule
  rw [List.range_succ_eq_map]
  simp only [List.map_cons, List.map_map]
  refine congrArg₂ List.cons (by norm_num) ?_
  refine List.map_congr_left ?_
  intro k hk
  simp only [Function.comp_apply]
  omega

/-- Unfolding a signal schedule from the back. -/
lemma signalSchedule_snoc (c n : ℕ) :
    signalSchedule c (n + 1) = signalSchedule c n ++ [c + 30000 * (n + 1)] := by
  unfold signalSchedule
  rw [List.range_succ, List.map_append]
  simp

/-- Iterating run_six_period: with completion signals arriving every
30000 ms, any number n of whole periods runs without ever entering deep
sleep, consuming every signal at its give time and ending in the Active
phase. -/
lemma run_periodic (n : ℕ) : ∀ (c : ℕ) (rest : List ℕ),
    sleepManagerRun (6 * n) (signalSchedule c n ++ rest) (c + 1000)
        (afterSignal c) =
      Sum.inl (rest, c + 30000 * n + 1000, afterSignal (c + 30000 * n)) := by
  induction n with
  | zero => intro c rest; simp [signalSchedule, sleepManagerRun]
  | succ n ih =>
    intro c rest
    have hfuel : 6 * (n + 1) = 6 + 6 * n := by ring
    have hsched : signalSchedule c (n + 1) ++ rest =
        (c + 30000) :: (signalSchedule (c + 30000) n ++ rest) := by
      rw [signalSchedule_succ_cons]; simp
    rw [hfuel, hsched, run_add, run_six_period]
    dsimp only
    rw [ih (c + 30000) rest]
    have harith : c + 30000 + 30000 * n = c + 30000 * (n + 1) := by ring
    rw [harith]

/-- C2: if the completion signal is delivered once every 30000 ms, the
sleep manager never reaches deep sleep and oscillates between Active and
Idle indefinitely: for every number n of whole 30000 ms periods from a
consumption at tick c, the run consumes every signal at its give time
and ends in the Active phase (first conjunct, the schedule fully
consumed and the result a Sum.inl, never the deep-sleep Sum.inr, for
arbitrarily large n), and one iteration into each new period the machine
is in the Idle phase with systemIdle set (second conjunct), so every
period passes through Active and Idle and back. -/
theorem periodic_signals_never_deep_sleep (n c : ℕ) :
    sleepManagerRun (6 * n) (signalSchedule c n) (c + 1000)
        (afterSignal c) =
      Sum.inl ([], c + 30000 * n + 1000, afterSignal (c + 30000 * n)) ∧
    sleepManagerRun (6 * n + 1) (signalSchedule c (n + 1)) (c + 1000)
        (afterSignal c) =
      Sum.inl ([c + 30000 * (n + 1)], c + 30000 * n + 6500,
        ⟨c + 30000 * n + 6000, true, true⟩) := by
  constructor
  · have hp := run_periodic n c []
    rwa [List.append_nil] at hp
  · rw [signalSchedule_snoc, run_add (6 * n) 1,
        run_periodic n c [c + 30000 * (n + 1)]]
    dsimp only
    have e : sleepManagerStep [c + 30000 * (n + 1)] (c + 30000 * n + 1000)
        (afterSignal (c + 30000 * n)) =
        Sum.inl ([c + 30000 * (n + 1)], c + 30000 * n + 6500,
          ⟨c + 30000 * n + 6000, true, true⟩) := by
      rw [show afterSignal (c + 30000 * n) =
            ⟨c + 30000 * n + 500, false, true⟩ from rfl,
          step_cons_tmo_active _ _ _ _ (by omega)]
    refine (run_succ_inl 0 e).trans ?_
    simp [sleepManagerRun]

/-- C1 (amended): if after a signal consumed at tick t0 no further
signal is ever received, the state machine enters deep sleep exactly
once (the Sum.inr result is final, whatever extra fuel k is supplied),
with the hardware wake timer armed with exactly 30000000 microseconds;
the transition happens at tick t0 + 44500, not after 35000 ms of
silence, because idle time is measured from entry into Idle at the
first 5000 ms poll timeout (t0 + 6000) and is only examined at poll
timeouts spaced 5500 ms apart. -/
theorem stall_enters_deep_sleep_once (t0 k : ℕ) :
    sleepManagerRun (8 + k) [] (t0 + 1000) (afterSignal t0) =
      Sum.inr (t0 + 44500, sleepDurationUs) ∧
    sleepDurationUs = 30000000 := by
  have e1 : sleepManagerStep [] (t0 + 1000) (afterSignal t0) =
      Sum.inl ([], t0 + 6500, ⟨t0 + 6000, true, true⟩) := by
    rw [show afterSignal t0 = ⟨t0 + 500, false, true⟩ from rfl,
        step_nil_tmo_active]
  have e2 : sleepManagerStep [] (t0 + 6500) ⟨t0 + 6000, true, true⟩ =
      Sum.inl ([], t0 + 12000, ⟨t0 + 6000, true, true⟩) := by
    rw [step_nil_tmo_idle_le _ _
      (by simp only [tickDiff, DEEP_SLEEP_THRESHOLD_MS]; omega)]
  have e3 : sleepManagerStep [] (t0 + 12000) ⟨t0 + 6000, true, true⟩ =
      Sum.inl ([], t0 + 17500, ⟨t0 + 6000, true, true⟩) := by
    rw [step_nil_tmo_idle_le _ _
      (by simp only [tickDiff, DEEP_SLEEP_THRESHOLD_MS]; omega)]
  have e4 : sleepManagerStep [] (t0 + 17500) ⟨t0 + 6000, true, true⟩ =
      Sum.inl ([], t0 + 23000, ⟨t0 + 6000, true, true⟩) := by
    rw [step_nil_tmo_idle_le _ _
      (by simp only [tickDiff, DEEP_SLEEP_THRESHOLD_MS]; omega)]
  have e5 : sleepManagerStep [] (t0 + 23000) ⟨t0 + 6000, true, true⟩ =
      Sum.inl ([], t0 + 28500, ⟨t0 + 6000, true, true⟩) := by
    rw [step_nil_tmo_idle_le _ _
      (by simp only [tickDiff, DEEP_SLEEP_THRESHOLD_MS]; omega)]
  have e6 : sleepManagerStep [] (t0 + 28500) ⟨t0 + 6000, true, true⟩ =
      Sum.inl ([], t0 + 34000, ⟨t0 + 6000, true, true⟩) := by
    rw [step_nil_tmo_idle_le _ _
      (by simp only [tickDiff, DEEP_SLEEP_THRESHOLD_MS]; omega)]
  have e7 : sleepManagerStep [] (t0 + 34000) ⟨t0 + 6000, true, true⟩ =
      Sum.inl ([], t0 + 39500, ⟨t0 + 6000, true, true⟩) := by
    rw [step_nil_tmo_idle_le _ _
      (by simp only [tickDiff, DEEP_SLEEP_THRESHOLD_MS]; omega)]
  have e8 : sleepManagerStep [] (t0 + 39500) ⟨t0 + 6000, true, true⟩ =
      Sum.inr (t0 + 44500, sleepDurationUs) := by
    rw [step_nil_tmo_idle_gt _ _
      (by simp only [tickDiff, DEEP_SLEEP_THRESHOLD_MS]; omega)]
  have h8 : sleepManagerRun 8 [] (t0 + 1000) (afterSignal t0) =
      Sum.inr (t0 + 44500, sleepDurationUs) := by
    refine (run_succ_inl 7 e1).trans ?_
    refine (run_succ_inl 6 e2).trans ?_
    refine (run_succ_inl 5 e3).trans ?_
    refine (run_succ_inl 4 e4).trans ?_
    refine (run_succ_inl 3 e5).trans ?_
    refine (run_succ_inl 2 e6).trans ?_
    refine (run_succ_inl 1 e7).trans ?_
    exact run_succ_inr 0 e8
  exact ⟨by rw [run_add 8 k, h8], rfl⟩

/-- An execution in which the last signal was consumed at tick 0 and the
next give only comes at tick 36500 (a silence of 36500 ms, beyond the
35000 ms threshold), with signals every 30000 ms afterwards: the first
give is consumed at tick 36500, after six poll timeouts during which the
idle duration (measured from tick 6000) peaks at 27500 ms, and the run
then continues periodically without ever sleeping. -/
lemma silence_then_periodic_no_sleep (n : ℕ) :
    sleepManagerRun (7 + 6 * n) (36500 :: signalSchedule 36500 n) 1000
        (afterSignal 0) =
      Sum.inl ([], 36500 + 30000 * n + 1000,
        afterSignal (36500 + 30000 * n)) := by
  have e1 : sleepManagerStep (36500 :: signalSchedule 36500 n) 1000
      (afterSignal 0) =
      Sum.inl (36500 :: signalSchedule 36500 n, 6500, ⟨6000, true, true⟩) := by
    rw [show afterSignal 0 = ⟨500, false, true⟩ from rfl,
        step_cons_tmo_active _ _ _ _ (by norm_num)]
  have e2 : sleepManagerStep (36500 :: signalSchedule 36500 n) 6500
      ⟨6000, true, true⟩ =
      Sum.inl (36500 :: signalSchedule 36500 n, 12000, ⟨6000, true, true⟩) := by
    rw [step_cons_tmo_idle_le _ _ _ _ (by norm_num) (by decide)]
  have e3 : sleepManagerStep (36500 :: signalSchedule 36500 n) 12000
      ⟨6000, true, true⟩ =
      Sum.inl (36500 :: signalSchedule 36500 n, 17500, ⟨6000, true, true⟩) := by
    rw [step_cons_tmo_idle_le _ _ _ _ (by norm_num) (by decide)]
  have e4 : sleepManagerStep (36500 :: signalSchedule 36500 n) 17500
      ⟨6000, true, true⟩ =
      Sum.inl (36500 :: signalSchedule 36500 n, 23000, ⟨6000, true, true⟩) := by
    rw [step_cons_tmo_idle_le _ _ _ _ (by norm_num) (by decide)]
  have e5 : sleepManagerStep (36500 :: signalSchedule 36500 n) 23000
      ⟨6000, true, true⟩ =
      Sum.inl (36500 :: signalSchedule 36500 n, 28500, ⟨6000, true, true⟩) := by
    rw [step_cons_tmo_idle_le _ _ _ _ (by norm_num) (by decide)]
  have e6 : sleepManagerStep (36500 :: signalSchedule 36500 n) 28500
      ⟨6000, true, true⟩ =
      Sum.inl (36500 :: signalSchedule 36500 n, 34000, ⟨6000, true, true⟩) := by
    rw [step_cons_tmo_idle_le _ _ _ _ (by norm_num) (by decide)]
  have e7 : sleepManagerStep (36500 :: signalSchedule 36500 n) 34000
      ⟨6000, true, true⟩ =
      Sum.inl (signalSchedule 36500 n, 36500 + 1000, afterSignal 36500) := by
    rw [step_signal _ _ _ _ (by norm_num),
        max_eq_left (by norm_num : (34000 : ℕ) ≤ 36500)]
  have h7 : sleepManagerRun 7 (36500 :: signalSchedule 36500 n) 1000
      (afterSignal 0) =
      Sum.inl (signalSchedule 36500 n, 36500 + 1000, afterSignal 36500) := by
    refine (run_succ_inl 6 e1).trans ?_
    refine (run_succ_inl 5 e2).trans ?_
    refine (run_succ_inl 4 e3).trans ?_
    refine (run_succ_inl 3 e4).trans ?_
    refine (run_succ_inl 2 e5).trans ?_
    refine (run_succ_inl 1 e6).trans ?_
    exact run_succ_inl 0 e7
  rw [run_add 7 (6 * n), h7]
  dsimp only
  have hp := run_periodic n 36500 []
  rwa [List.append_nil] at hp

/-- C1 counterexample: a concrete execution in which, after
haveFirstReading became true (a signal was consumed at tick 0), no
further signal is received for 36500 ms, which exceeds the 35000 ms
threshold, and yet the state machine NEVER transitions to deep sleep:
signals resume at tick 36500 and continue every 30000 ms, and for every
fuel m the run still ends in a Sum.inl (deep sleep would be a final
Sum.inr by run_inr_extend).  The claim that more than 35000 ms without a
signal forces a deep-sleep transition is therefore false of the code. -/
theorem silence_over_threshold_without_deep_sleep :
    35000 < 36500 ∧
    ∀ m : ℕ,
      (sleepManagerRun m (36500 :: signalSchedule 36500 m) 1000
        (afterSignal 0)).isLeft = true := by
  refine ⟨by norm_num, fun m => ?_⟩
  cases h : sleepManagerRun m (36500 :: signalSchedule 36500 m) 1000
      (afterSignal 0) with
  | inl p => rfl
  | inr r =>
    exfalso
    have habs := run_inr_extend m (7 + 5 * m) _ _ _ r h
    have hfuel : m + (7 + 5 * m) = 7 + 6 * m := by ring
    rw [hfuel, silence_then_periodic_no_sleep m] at habs
    simp at habs

/-- Inverting a deep-sleep timeout step: enterDeepSleep can only have
run from a state with initialMeasurementComplete and systemIdle both
set. -/
lemma stepTimeout_inr_inv (s : SleepManagerState) (now d : ℕ)
    (h : stepTimeout s now = Sum.inr d) :
    s.initialMeasurementComplete = true ∧ s.systemIdle = true := by
  obtain ⟨i, idle, first⟩ := s
  cases first with
  | false =>
    rw [stepTimeout_waitingFirst _ _ rfl] at h
    exact Sum.noConfusion h
  | true =>
    cases idle with
    | false =>
      rw [stepTimeout_active] at h
      exact Sum.noConfusion h
    | true => exact ⟨rfl, rfl⟩

/-- C3: the deep-sleep transition is taken only from the Idle phase with
initialMeasurementComplete set: any iteration that calls enterDeepSleep
started from a state with both flags true (first conjunct), so deep
sleep is never entered from the WaitingFirst or Active phases; and while
initialMeasurementComplete is false no amount of elapsed time causes a
transition to deep sleep: a run of any length n with no signals leaves
the state untouched while time advances by 5500 ms per iteration
(second conjunct). -/
theorem deep_sleep_only_from_idle_after_first :
    (∀ (gives : List ℕ) (t : ℕ) (s : SleepManagerState) (r : ℕ × ℕ),
        sleepManagerStep gives t s = Sum.inr r →
        s.initialMeasurementComplete = true ∧ s.systemIdle = true) ∧
    (∀ (n t i : ℕ) (b : Bool),
        sleepManagerRun n [] t ⟨i, b, false⟩ =
          Sum.inl ([], t + 5500 * n, ⟨i, b, false⟩)) := by
  constructor
  · intro gives t s r h
    cases gives with
    | nil =>
      simp only [sleepManagerStep] at h
      rcases hst : stepTimeout s (t + 5000) with s1 | d
      · rw [hst] at h
        simp at h
      · exact stepTimeout_inr_inv s _ d hst
    | cons g rest =>
      simp only [sleepManagerStep] at h
      by_cases hg : g ≤ t + 5000
      · rw [if_pos hg] at h
        simp at h
      · rw [if_neg hg] at h
        rcases hst : stepTimeout s (t + 5000) with s1 | d
        · rw [hst] at h
          simp at h
        · exact stepTimeout_inr_inv s _ d hst
  · intro n
    induction n with
    | zero => intro t i b; simp [sleepManagerRun]
    | succ n ih =>
      intro t i b
      have e : sleepManagerStep [] t ⟨i, b, false⟩ =
          Sum.inl ([], t + 5500, ⟨i, b, false⟩) :=
        step_nil_notFirst t ⟨i, b, false⟩ rfl
      refine (run_succ_inl n e).trans ?_
      rw [ih (t + 5500) i b]
      have harith : t + 5500 + 5500 * n = t + 5500 * (n + 1) := by ring
      rw [harith]

/-- Witness for deep_sleep_only_from_idle_after_first: a concrete
iteration that does enter deep sleep (no gives, take at tick 40000, Idle
since tick 0) indeed started with both flags set. -/
theorem deep_sleep_only_from_idle_after_first_witness :
    (⟨0, true, true⟩ : SleepManagerState).initialMeasurementComplete =
      true ∧
    (⟨0, true, true⟩ : SleepManagerState).systemIdle = true :=
  deep_sleep_only_from_idle_after_first.1 [] 40000 ⟨0, true, true⟩
    (45000, sleepDurationUs) (by decide)
